import Mathlib

/-!
Verification of the response-normalization and verification layer of the
playwright-ui-api-automation repository: the JSON value model, the typed
response model (`src/core/types.py`), the assertion helper
(`src/core/assertions.py`), the base API client verification primitives
(`src/core/base_api_client.py`) and the AirportGap client orchestration
(`src/api/airports_client.py`), shallowly embedded in Lean.

Python conventions are made explicit: dynamically typed values are a `Json`
inductive, Python floats are modelled as rationals, raising functions return
`Except String`, and the logger warning channel of the batch mapper is an
explicit list of warning strings.
-/

set_option autoImplicit false

/-- A Python/JSON dynamic value: the payloads the clients manipulate.
Numbers are modelled as rationals (Python floats), objects as association
lists in insertion order (Python dicts with unique keys). -/
inductive Json where
  | str (s : String)
  | num (q : ℚ)
  | bool (b : Bool)
  | null
  | arr (elements : List Json)
  | obj (entries : List (String × Json))

/-- First-match association-list lookup, i.e. Python `dict` access on the
insertion-ordered entry list. -/
def lookupKey : List (String × Json) → String → Option Json
  | [], _ => none
  | (k, v) :: rest, key => if k = key then some v else lookupKey rest key

/-- Python `key in d` for a dict, on the entry list. -/
def hasKey (entries : List (String × Json)) (key : String) : Bool :=
  (lookupKey entries key).isSome

/-- Python `x == s` where `s` is a string and `x` an arbitrary value:
true exactly for the equal string. -/
def Json.eqStr : Json → String → Bool
  | .str s, t => s == t
  | _, _ => false

/-- Python truthiness of a value (`if x:`). -/
def Json.truthy : Json → Bool
  | .str s => !(s == "")
  | .num q => if q = 0 then false else true
  | .bool b => b
  | .null => false
  | .arr elements => !elements.isEmpty
  | .obj entries => !entries.isEmpty

/-- Python `x.get(key, default)`: raises `AttributeError` when `x` is not a
dict (lists and strings have no `get` method). -/
def Json.getD (j : Json) (key : String) (default : Json) : Except String Json :=
  match j with
  | .obj entries => .ok ((lookupKey entries key).getD default)
  | _ => .error ("AttributeError: object has no attribute get")

/-- Python `x[key]` subscripting with a string key. -/
def Json.subscript (j : Json) (key : String) : Except String Json :=
  match j with
  | .obj entries =>
    match lookupKey entries key with
    | some v => .ok v
    | none => .error ("KeyError: " ++ key)
  | .arr _ => .error ("TypeError: list indices must be integers or slices, not str")
  | .str _ => .error ("TypeError: string indices must be integers")
  | _ => .error ("TypeError: object is not subscriptable")

/-- Python single-quoted `repr` of a string (quotes written via escapes). -/
def pyRepr (s : String) : String := "\x27" ++ s ++ "\x27"

/-- Joins rendered pieces with a separator (`str.join`). -/
def joinSep (sep : String) : List String → String
  | [] => ""
  | [s] => s
  | s :: rest => s ++ sep ++ joinSep sep rest

/-- Python `str()` of a list of strings, as interpolated into f-strings. -/
def renderStrList (xs : List String) : String :=
  "[" ++ joinSep (", ") (xs.map pyRepr) ++ "]"

mutual

/-- Python `str()` of a parsed JSON value, as interpolated into f-strings. -/
def Json.render : Json → String
  | .str s => pyRepr s
  | .num q => toString q
  | .bool b => if b then "True" else "False"
  | .null => "None"
  | .arr elements => "[" ++ Json.renderSeq elements ++ "]"
  | .obj entries => "\x7b" ++ Json.renderEntries entries ++ "\x7d"

/-- Renders the comma-separated elements of a list value. -/
def Json.renderSeq : List Json → String
  | [] => ""
  | [j] => j.render
  | j :: rest => j.render ++ ", " ++ Json.renderSeq rest

/-- Renders the comma-separated entries of a dict value. -/
def Json.renderEntries : List (String × Json) → String
  | [] => ""
  | [(k, v)] => pyRepr k ++ ": " ++ v.render
  | (k, v) :: rest => pyRepr k ++ ": " ++ v.render ++ ", " ++ Json.renderEntries rest

end

/-- Python `type(x)` as rendered into error messages. -/
def Json.typeName : Json → String
  | .str _ => "<class str>"
  | .num _ => "<class float>"
  | .bool _ => "<class bool>"
  | .null => "<class NoneType>"
  | .arr _ => "<class list>"
  | .obj _ => "<class dict>"

/-- Python `s.upper()` (ASCII case mapping). -/
def pyUpper (s : String) : String := String.mk (s.data.map Char.toUpper)

/-- Numeric value of a digit string (helper for `float()` string coercion). -/
def digitsVal (cs : List Char) : Nat :=
  cs.foldl (fun acc c => acc * 10 + (c.toNat - 48)) 0

/-- Parses an unsigned decimal literal `digits[.digits]` as a rational. -/
def parseUnsignedDecimal (cs : List Char) : Option ℚ :=
  let intPart := cs.takeWhile (fun c => c ≠ '.')
  match cs.dropWhile (fun c => c ≠ '.') with
  | [] =>
    if intPart ≠ [] ∧ intPart.all Char.isDigit then some ((digitsVal intPart : ℚ))
    else none
  | '.' :: fracPart =>
    if (intPart ≠ [] ∨ fracPart ≠ []) ∧ intPart.all Char.isDigit ∧ fracPart.all Char.isDigit then
      some ((digitsVal intPart : ℚ) + (digitsVal fracPart : ℚ) / (10 ^ fracPart.length))
    else none
  | _ => none

/-- Parses a signed decimal literal as a rational (plain decimal literals;
exponent and infinity forms are outside the payloads modelled here). -/
def parseDecimal (s : String) : Option ℚ :=
  match s.trim.data with
  | '+' :: cs => parseUnsignedDecimal cs
  | '-' :: cs => (parseUnsignedDecimal cs).map Neg.neg
  | cs => parseUnsignedDecimal cs

/-- Python `float(x)`: numbers pass through, booleans become 0/1, numeric
strings are parsed, anything else raises. -/
def pyFloat : Json → Except String ℚ
  | .num q => .ok q
  | .bool b => .ok (if b then 1 else 0)
  | .str s =>
    match parseDecimal s with
    | some q => .ok q
    | none => .error ("ValueError: could not convert string to float: " ++ pyRepr s)
  | j => .error ("TypeError: float() argument must be a string or a real number, not " ++ j.typeName)

/-- Prefix test on character lists (helper for substring containment). -/
def charsStartWith : List Char → List Char → Bool
  | _, [] => true
  | [], _ :: _ => false
  | c :: cs, d :: ds => c == d && charsStartWith cs ds

/-- Substring containment on character lists (for Python `in` on strings). -/
def charsContain : List Char → List Char → Bool
  | [], needle => needle.isEmpty
  | hay@(_ :: rest), needle => charsStartWith hay needle || charsContain rest needle

/-- Substring containment on strings. -/
def strContains (hay needle : String) : Bool := charsContain hay.data needle.data

/-- Python `item in container` for a string item. -/
def pyContains (container : Json) (item : String) : Except String Bool :=
  match container with
  | .obj entries => .ok (hasKey entries item)
  | .arr elements => .ok (elements.any (fun j => j.eqStr item))
  | .str s => .ok (strContains s item)
  | _ => .error ("TypeError: argument of type " ++ container.typeName ++ " is not iterable")

/-- `APIResponse` from `src/core/types.py`: the normalized HTTP response.
The body is a parsed JSON value or raw text (a `.str`). -/
structure APIResponse where
  status_code : Int
  headers : List (String × String)
  body : Json
  url : String
  method : String
  duration_ms : Option ℚ

/-- `APIResponse.is_success` from `src/core/types.py`. -/
def APIResponse.is_success (r : APIResponse) : Bool :=
  200 ≤ r.status_code && r.status_code < 300

/-- `Airport` from `src/core/types.py`: id, discriminator and the open
attribute mapping. The dataclass does not enforce the field annotations, so
the fields hold arbitrary values. -/
structure Airport where
  id : Json
  type : Json
  attributes : Json

/-- `Airport.name`: `self.attributes.get("name", "")`. -/
def Airport.name (a : Airport) : Except String Json :=
  a.attributes.getD ("name") (.str "")

/-- `Airport.city`: `self.attributes.get("city", "")`. -/
def Airport.city (a : Airport) : Except String Json :=
  a.attributes.getD ("city") (.str "")

/-- `Airport.country`: `self.attributes.get("country", "")`. -/
def Airport.country (a : Airport) : Except String Json :=
  a.attributes.getD ("country") (.str "")

/-- `Airport.iata_code`: `self.attributes.get("iata", "")`. -/
def Airport.iata_code (a : Airport) : Except String Json :=
  a.attributes.getD ("iata") (.str "")

/-- `DistanceCalculation` from `src/core/types.py`. -/
structure DistanceCalculation where
  from_airport : Airport
  to_airport : Airport
  kilometers : ℚ
  miles : ℚ
  nautical_miles : ℚ

/-- `DistanceCalculation.is_valid_distance` from `src/core/types.py`. -/
def DistanceCalculation.is_valid_distance (d : DistanceCalculation) : Bool :=
  decide (0 < d.kilometers) && decide (0 < d.miles) && decide (0 < d.nautical_miles)

/-- `BaseAPIClient.verify_response_status` from `src/core/base_api_client.py`. -/
def verify_response_status (response : APIResponse) (expected_status : Int) :
    Except String Unit :=
  if response.status_code ≠ expected_status then
    .error ("Expected status code " ++ toString expected_status ++ ", got "
      ++ toString response.status_code ++ ". Response: " ++ response.body.render)
  else .ok ()

/-- `BaseAPIClient.verify_response_contains_keys` from
`src/core/base_api_client.py`. -/
def verify_response_contains_keys (response : APIResponse)
    (required_keys : List String) : Except String Unit :=
  match response.body with
  | .obj entries =>
    let missing_keys := required_keys.filter (fun key => !hasKey entries key)
    if missing_keys ≠ [] then
      .error ("Missing required keys in response: " ++ renderStrList missing_keys
        ++ ". Available keys: " ++ renderStrList (entries.map Prod.fst))
    else .ok ()
  | body => .error ("Response body is not a JSON object: " ++ body.typeName)

/-- One iteration of the mapping loop in `AirportsClient.get_all_airports`:
`Airport(id=d.get("id",""), type=d.get("type",""), attributes=d.get("attributes",{}))`.
Raises exactly when the record is not a dict. -/
def parseAirport (airport_data : Json) : Except String Airport :=
  match airport_data.getD ("id") (.str "") with
  | .error e => .error e
  | .ok i =>
    match airport_data.getD ("type") (.str "") with
    | .error e => .error e
    | .ok t =>
      match airport_data.getD ("attributes") (.obj []) with
      | .error e => .error e
      | .ok attrs => .ok { id := i, type := t, attributes := attrs }

/-- The warning logged when a record of the batch fails to map. -/
def airportWarning (airport_data : Json) (e : String) : String :=
  "Failed to parse airport data: " ++ airport_data.render ++ " - " ++ e

/-- The batch loop of `AirportsClient.get_all_airports`: converts each raw
record, appends successes, and logs a warning for each failure. Returns the
entity list together with the warning channel. -/
def mapAirports : List Json → List Airport × List String
  | [] => ([], [])
  | airport_data :: rest =>
    let tail := mapAirports rest
    match parseAirport airport_data with
    | .ok airport => (airport :: tail.1, tail.2)
    | .error e => (tail.1, airportWarning airport_data e :: tail.2)

/-- `AirportsClient.get_all_airports` from `src/api/airports_client.py`,
applied to the response of `GET /api/airports`. The warning channel of the
mapping loop is returned alongside the airports. -/
def get_all_airports (response : APIResponse) :
    Except String (List Airport × List String) :=
  match verify_response_status response 200 with
  | .error e => .error e
  | .ok _ =>
    match response.body with
    | .obj _ =>
      match verify_response_contains_keys response ["data"] with
      | .error e => .error e
      | .ok _ =>
        match response.body.getD ("data") (.arr []) with
        | .error e => .error e
        | .ok airports_data =>
          match airports_data with
          | .arr records => .ok (mapAirports records)
          | d => .error ("Expected data to be a list, got " ++ d.typeName)
    | body => .error ("Expected JSON response, got " ++ body.typeName)

/-- The list comprehension of `AirportsClient.get_airport_names`:
`[airport.name for airport in airports if airport.name]`. -/
def projectNames : List Airport → Except String (List Json)
  | [] => .ok []
  | airport :: rest =>
    match airport.name with
    | .error e => .error e
    | .ok n =>
      match projectNames rest with
      | .error e => .error e
      | .ok names => .ok (if n.truthy then n :: names else names)

/-- `AirportsClient.get_airport_names` from `src/api/airports_client.py`. -/
def get_airport_names (response : APIResponse) : Except String (List Json) :=
  match get_all_airports response with
  | .error e => .error e
  | .ok (airports, _) => projectNames airports

/-- `AirportsClient.verify_airports_exist` from `src/api/airports_client.py`.
The `verification_results` dict is modelled as the association list built by
the loop. -/
def verify_airports_exist (response : APIResponse)
    (required_airports : List String) : Except String (List (String × Bool)) :=
  match get_airport_names response with
  | .error e => .error e
  | .ok airport_names =>
    let verification_results :=
      required_airports.map (fun r => (r, airport_names.any (fun n => n.eqStr r)))
    let missing_airports :=
      required_airports.filter (fun r => !airport_names.any (fun n => n.eqStr r))
    if missing_airports ≠ [] then
      .error ("Missing required airports: " ++ renderStrList missing_airports
        ++ ". Available airports: " ++ Json.render (.arr airport_names))
    else .ok verification_results

/-- The list comprehension over the required distance fields in
`AirportsClient.calculate_distance`:
`[field for field in required_fields if field not in attributes]`. -/
def missingFields (attributes : Json) : List String → Except String (List String)
  | [] => .ok []
  | field :: rest =>
    match pyContains attributes field with
    | .error e => .error e
    | .ok present =>
      match missingFields attributes rest with
      | .error e => .error e
      | .ok others => .ok (if present then others else field :: others)

/-- `AirportsClient.calculate_distance` from `src/api/airports_client.py`,
applied to the response of `POST /api/airports/distance`. The surrounding
try/except re-raises unchanged, so errors propagate as-is. -/
def calculate_distance (response : APIResponse)
    (from_airport to_airport : String) : Except String DistanceCalculation :=
  match verify_response_status response 200 with
  | .error e => .error e
  | .ok _ =>
    match response.body with
    | .obj _ =>
      match verify_response_contains_keys response ["data"] with
      | .error e => .error e
      | .ok _ =>
        match response.body.getD ("data") (.obj []) with
        | .error e => .error e
        | .ok data =>
          match data.getD ("attributes") (.obj []) with
          | .error e => .error e
          | .ok attributes =>
            match missingFields attributes ["kilometers", "miles", "nautical_miles"] with
            | .error e => .error e
            | .ok missing_fields =>
              if missing_fields ≠ [] then
                .error ("Missing distance fields: " ++ renderStrList missing_fields)
              else
                match data.getD ("relationships") (.obj []) with
                | .error e => .error e
                | .ok relationships =>
                  match relationships.getD ("from") (.obj []) with
                  | .error e => .error e
                  | .ok from_rel =>
                    match from_rel.getD ("data") (.obj []) with
                    | .error e => .error e
                    | .ok from_airport_data =>
                      match relationships.getD ("to") (.obj []) with
                      | .error e => .error e
                      | .ok to_rel =>
                        match to_rel.getD ("data") (.obj []) with
                        | .error e => .error e
                        | .ok to_airport_data =>
                          match from_airport_data.getD ("id") (.str from_airport) with
                          | .error e => .error e
                          | .ok from_id =>
                            match from_airport_data.getD ("type") (.str "airport") with
                            | .error e => .error e
                            | .ok from_type =>
                              match to_airport_data.getD ("id") (.str to_airport) with
                              | .error e => .error e
                              | .ok to_id =>
                                match to_airport_data.getD ("type") (.str "airport") with
                                | .error e => .error e
                                | .ok to_type =>
                                  let from_airport_obj : Airport :=
                                    { id := from_id, type := from_type,
                                      attributes := .obj [("iata", .str from_airport)] }
                                  let to_airport_obj : Airport :=
                                    { id := to_id, type := to_type,
                                      attributes := .obj [("iata", .str to_airport)] }
                                  match attributes.subscript ("kilometers") with
                                  | .error e => .error e
                                  | .ok kv =>
                                    match pyFloat kv with
                                    | .error e => .error e
                                    | .ok kilometers =>
                                      match attributes.subscript ("miles") with
                                      | .error e => .error e
                                      | .ok mv =>
                                        match pyFloat mv with
                                        | .error e => .error e
                                        | .ok miles =>
                                          match attributes.subscript ("nautical_miles") with
                                          | .error e => .error e
                                          | .ok nv =>
                                            match pyFloat nv with
                                            | .error e => .error e
                                            | .ok nautical_miles =>
                                              .ok { from_airport := from_airport_obj,
                                                    to_airport := to_airport_obj,
                                                    kilometers := kilometers,
                                                    miles := miles,
                                                    nautical_miles := nautical_miles }
    | body => .error ("Expected JSON response, got " ++ body.typeName)

/-- The failure signal of an assertion helper operation: the raised message
together with the diagnostic payload attached to the report. -/
structure AssertionFailure where
  message : String
  attachment : String

/-- The default failure message of `AssertionHelper.assert_greater_than`. -/
def gtFailMsg (actual threshold : ℚ) : String :=
  "Value is not greater than threshold.\nActual: " ++ toString actual
    ++ "\nThreshold: " ++ toString threshold
    ++ "\nDifference: " ++ toString (actual - threshold)

/-- The diagnostic attachment of `AssertionHelper.assert_greater_than`. -/
def gtAttachment (actual threshold : ℚ) : String :=
  "Actual: " ++ toString actual ++ "\nThreshold: " ++ toString threshold
    ++ "\nDifference: " ++ toString (actual - threshold)

/-- `AssertionHelper.assert_greater_than` from `src/core/assertions.py`. -/
def assert_greater_than (actual threshold : ℚ) (message : Option String) :
    Except AssertionFailure Unit :=
  if actual ≤ threshold then
    .error { message := message.getD (gtFailMsg actual threshold),
             attachment := gtAttachment actual threshold }
  else .ok ()

/-- The scan loop of `AirportsClient.get_airport_by_iata_code`:
`airport.iata_code.upper() == iata_code.upper()`, first match wins. -/
def findByIata : List Airport → String → Except String (Option Airport)
  | [], _ => .ok none
  | airport :: rest, iata_code =>
    match airport.iata_code with
    | .error e => .error e
    | .ok code =>
      match code with
      | .str s =>
        if pyUpper s = pyUpper iata_code then .ok (some airport)
        else findByIata rest iata_code
      | other => .error ("AttributeError: " ++ other.typeName ++ " object has no attribute upper")

/-- The body of the try block of `AirportsClient.get_airport_by_iata_code`. -/
def airportLookup (response : APIResponse) (iata_code : String) :
    Except String (Option Airport) :=
  match get_all_airports response with
  | .error e => .error e
  | .ok (airports, _) => findByIata airports iata_code

/-- `AirportsClient.get_airport_by_iata_code` from
`src/api/airports_client.py`: the except clause converts every exception to
`None`, so the operation is total. -/
def get_airport_by_iata_code (response : APIResponse) (iata_code : String) :
    Option Airport :=
  match airportLookup response iata_code with
  | .ok result => result
  | .error _ => none

/-- The conversion-ratio validation step of the distance test
(`tests/api/test_distance_kix_nrt.py`, the step named
`Verify distance unit conversions are reasonable`): 5% tolerance around the
km-to-miles and km-to-nautical-miles factors. -/
def validate_conversion_ratios (d : DistanceCalculation) : Except String Unit :=
  let km_to_miles := d.miles / d.kilometers
  let km_to_nm := d.nautical_miles / d.kilometers
  let expected_km_to_miles : ℚ := 621371 / 1000000
  let expected_km_to_nm : ℚ := 539957 / 1000000
  let tolerance : ℚ := 5 / 100
  if |km_to_miles - expected_km_to_miles| > expected_km_to_miles * tolerance then
    .error ("Kilometers to miles conversion seems incorrect.")
  else if |km_to_nm - expected_km_to_nm| > expected_km_to_nm * tolerance then
    .error ("Kilometers to nautical miles conversion seems incorrect.")
  else .ok ()

/-- The name attribute of an entity when its attribute mapping carries a
string (or defaulted) name value. -/
def nameStr (a : Airport) : Option String :=
  match a.attributes with
  | .obj entries =>
    match (lookupKey entries ("name")).getD (.str "") with
    | .str s => some s
    | _ => none
  | _ => none

/-- The iata attribute of an entity when its attribute mapping carries a
string (or defaulted) iata value. -/
def iataStr (a : Airport) : Option String :=
  match a.attributes with
  | .obj entries =>
    match (lookupKey entries ("iata")).getD (.str "") with
    | .str s => some s
    | _ => none
  | _ => none

/-- The round-trip raw record
`{"id":"1","type":"airport","attributes":{"name":"X","iata":"XXX"}}`. -/
def roundTripRecord : Json :=
  .obj [("id", .str "1"), ("type", .str "airport"),
        ("attributes", .obj [("name", .str "X"), ("iata", .str "XXX")])]

/-- A well-formed distance response whose three unit measurements are not
consistent conversions of one distance (1 km, 100 miles, 1 nautical mile). -/
def inconsistentDistanceResponse : APIResponse :=
  { status_code := 200, headers := [],
    body := .obj [("data", .obj [("attributes",
      .obj [("kilometers", .num 1), ("miles", .num 100),
            ("nautical_miles", .num 1)])])],
    url := "/api/airports/distance", method := "POST", duration_ms := none }

/-- The calculation `calculate_distance` builds from
`inconsistentDistanceResponse` for the KIX→NRT request. -/
def inconsistentDistanceCalc : DistanceCalculation :=
  { from_airport := { id := .str "KIX", type := .str "airport",
                      attributes := .obj [("iata", .str "KIX")] },
    to_airport := { id := .str "NRT", type := .str "airport",
                    attributes := .obj [("iata", .str "NRT")] },
    kilometers := 1, miles := 100, nautical_miles := 1 }

/-- A distance response whose measurements are mutually consistent
(1000 km, 622 miles, 540 nautical miles). -/
def consistentDistanceResponse : APIResponse :=
  { status_code := 200, headers := [],
    body := .obj [("data", .obj [("attributes",
      .obj [("kilometers", .num 1000), ("miles", .num 622),
            ("nautical_miles", .num 540)])])],
    url := "/api/airports/distance", method := "POST", duration_ms := none }

/-- The calculation `calculate_distance` builds from
`consistentDistanceResponse` for the KIX→NRT request. -/
def consistentDistanceCalc : DistanceCalculation :=
  { from_airport := { id := .str "KIX", type := .str "airport",
                      attributes := .obj [("iata", .str "KIX")] },
    to_airport := { id := .str "NRT", type := .str "airport",
                    attributes := .obj [("iata", .str "NRT")] },
    kilometers := 1000, miles := 622, nautical_miles := 540 }

/-- A 404 response used against an expected status of 200. -/
def notFoundResponse : APIResponse :=
  { status_code := 404, headers := [], body := .str "Not Found",
    url := "/api/airports", method := "GET", duration_ms := none }

/-- An airports list response with three records: two well-formed, one
malformed (a bare string rather than a record object), and one airport
whose name is absent. -/
def airportsListResponse : APIResponse :=
  { status_code := 200, headers := [],
    body := .obj [("data", .arr
      [.obj [("id", .str "1"), ("type", .str "airport"),
             ("attributes", .obj [("name", .str "Osaka Intl"),
                                  ("iata", .str "kix")])],
       .str "malformed",
       .obj [("id", .str "2"), ("type", .str "airport"),
             ("attributes", .obj [("iata", .str "NRT")])]])],
    url := "/api/airports", method := "GET", duration_ms := none }

/-- The two entities mapped from `airportsListResponse`. -/
def kixAirport : Airport :=
  { id := .str "1", type := .str "airport",
    attributes := .obj [("name", .str "Osaka Intl"), ("iata", .str "kix")] }

/-- The second mapped entity of `airportsListResponse` (name absent). -/
def noNameAirport : Airport :=
  { id := .str "2", type := .str "airport",
    attributes := .obj [("iata", .str "NRT")] }

/-- A response whose JSON object body has keys data and count. -/
def keysResponse : APIResponse :=
  { status_code := 200, headers := [],
    body := .obj [("data", .arr []), ("count", .num 2)],
    url := "/api/airports", method := "GET", duration_ms := none }

lemma missingFields_obj (attr_entries : List (String × Json)) (fields : List String) :
    missingFields (.obj attr_entries) fields =
      .ok (fields.filter (fun f => !hasKey attr_entries f)) := by
  induction fields with
  | nil => rfl
  | cons f rest ih =>
    simp only [missingFields, pyContains, ih, List.filter_cons]
    by_cases h : hasKey attr_entries f <;> simp [h]

lemma mapAirports_fst (records : List Json) :
    (mapAirports records).1 = records.filterMap (fun r => (parseAirport r).toOption) := by
  induction records with
  | nil => rfl
  | cons r rest ih =>
    cases hp : parseAirport r <;>
      simp [mapAirports, hp, List.filterMap_cons, ih, Except.toOption]

lemma mapAirports_snd (records : List Json) :
    (mapAirports records).2 = records.filterMap (fun r =>
      match parseAirport r with
      | .ok _ => none
      | .error e => some (airportWarning r e)) := by
  induction records with
  | nil => rfl
  | cons r rest ih =>
    cases hp : parseAirport r <;>
      simp [mapAirports, hp, List.filterMap_cons, ih]

lemma mapAirports_fst_length (records : List Json) :
    (mapAirports records).1.length =
      (records.filter (fun r => (parseAirport r).isOk)).length := by
  induction records with
  | nil => rfl
  | cons r rest ih =>
    cases hp : parseAirport r <;>
      simp [mapAirports, hp, List.filter_cons, ih, Except.isOk, Except.toBool]

lemma mapAirports_snd_length (records : List Json) :
    (mapAirports records).2.length =
      (records.filter (fun r => !(parseAirport r).isOk)).length := by
  induction records with
  | nil => rfl
  | cons r rest ih =>
    cases hp : parseAirport r <;>
      simp [mapAirports, hp, List.filter_cons, ih, Except.isOk, Except.toBool]

lemma filter_isOk_length_eq (records : List Json) :
    (records.filter (fun r => (parseAirport r).isOk)).length =
      records.length - (records.filter (fun r => !(parseAirport r).isOk)).length := by
  have h := @List.length_eq_length_filter_add _ records (fun r => (parseAirport r).isOk)
  simp only [Bool.not_eq_true] at h ⊢
  omega

lemma name_of_nameStr {a : Airport} {s : String} (h : nameStr a = some s) :
    a.name = .ok (.str s) := by
  unfold nameStr at h
  cases hattr : a.attributes <;> rw [hattr] at h <;> simp only [reduceCtorEq] at h
  case obj entries =>
    cases hv : (lookupKey entries ("name")).getD (.str "") <;> rw [hv] at h <;>
      simp only [Option.some.injEq, reduceCtorEq] at h
    case str s2 =>
      subst h
      simp [Airport.name, Json.getD, hattr, hv]

lemma iata_of_iataStr {a : Airport} {s : String} (h : iataStr a = some s) :
    a.iata_code = .ok (.str s) := by
  unfold iataStr at h
  cases hattr : a.attributes <;> rw [hattr] at h <;> simp only [reduceCtorEq] at h
  case obj entries =>
    cases hv : (lookupKey entries ("iata")).getD (.str "") <;> rw [hv] at h <;>
      simp only [Option.some.injEq, reduceCtorEq] at h
    case str s2 =>
      subst h
      simp [Airport.iata_code, Json.getD, hattr, hv]

lemma projectNames_spec (airports : List Airport)
    (h : ∀ a ∈ airports, ∃ s, nameStr a = some s) :
    projectNames airports =
      .ok (((airports.filterMap nameStr).filter (fun s => !(s == ""))).map Json.str) := by
  induction airports with
  | nil => rfl
  | cons a rest ih =>
    obtain ⟨s, hs⟩ := h a (List.mem_cons_self a rest)
    have hname := name_of_nameStr hs
    have hrest := ih (fun b hb => h b (List.mem_cons_of_mem a hb))
    simp only [projectNames, hname, hrest, List.filterMap_cons, hs, List.filter_cons]
    by_cases hempty : s = ""
    · subst hempty; simp [Json.truthy]
    · simp [Json.truthy, hempty]

lemma findByIata_spec (airports : List Airport) (iata_code : String)
    (h : ∀ a ∈ airports, ∃ s, iataStr a = some s) :
    findByIata airports iata_code =
      .ok (airports.find? (fun a => pyUpper ((iataStr a).getD "") == pyUpper iata_code)) := by
  induction airports with
  | nil => rfl
  | cons a rest ih =>
    obtain ⟨s, hs⟩ := h a (List.mem_cons_self a rest)
    have hiata := iata_of_iataStr hs
    have hrest := ih (fun b hb => h b (List.mem_cons_of_mem a hb))
    simp only [findByIata, hiata, List.find?_cons, hs, Option.getD_some]
    by_cases hmatch : pyUpper s = pyUpper iata_code
    · simp [hmatch]
    · have hb : (pyUpper s == pyUpper iata_code) = false := beq_eq_false_iff_ne.mpr hmatch
      simp [hmatch, hb, hrest]

lemma get_all_airports_ok (response : APIResponse)
    (entries : List (String × Json)) (records : List Json)
    (hstatus : response.status_code = 200)
    (hbody : response.body = .obj entries)
    (hdata : lookupKey entries ("data") = some (.arr records)) :
    get_all_airports response = .ok (mapAirports records) := by
  unfold get_all_airports
  simp [verify_response_status, hstatus, hbody, verify_response_contains_keys,
        hasKey, hdata, Json.getD]

/-- C9: `verify_response_status` fails exactly when the actual status code
differs from the expected one, and its failure message carries the expected
status, the actual status and the response body. -/
theorem C9_verify_status_spec (response : APIResponse) (expected_status : Int) :
    (verify_response_status response expected_status = .ok () ↔
      response.status_code = expected_status)
  ∧ (response.status_code ≠ expected_status →
      verify_response_status response expected_status =
        .error ("Expected status code " ++ toString expected_status ++ ", got "
          ++ toString response.status_code ++ ". Response: " ++ response.body.render)) := by
  constructor
  · constructor
    · intro h
      by_contra hne
      simp [verify_response_status, hne] at h
    · intro h
      simp [verify_response_status, h]
  · intro h
    simp [verify_response_status, h]

/-- Witness for C9: a 404 response verified against 200 fails, with a
message containing both 404 and 200 and the body. -/
theorem C9_witness :
    verify_response_status notFoundResponse 200 =
      .error ("Expected status code " ++ toString (200 : Int) ++ ", got "
        ++ toString (404 : Int) ++ ". Response: " ++ Json.render (.str "Not Found"))
  ∧ strContains ("Expected status code " ++ toString (200 : Int) ++ ", got "
      ++ toString (404 : Int) ++ ". Response: " ++ Json.render (.str "Not Found"))
      ("404") = true
  ∧ strContains ("Expected status code " ++ toString (200 : Int) ++ ", got "
      ++ toString (404 : Int) ++ ". Response: " ++ Json.render (.str "Not Found"))
      ("200") = true := by
  refine ⟨?_, by decide, by decide⟩
  exact (C9_verify_status_spec notFoundResponse 200).2 (by decide)

/-- C8: `verify_response_contains_keys` fails whenever the body is not a
JSON object; on an object body it fails exactly when some required key is
absent, with a message listing every absent key and the keys present. -/
theorem C8_verify_contains_keys_spec (response : APIResponse)
    (required_keys : List String) :
    (∀ entries, response.body = .obj entries →
      (required_keys.filter (fun key => !hasKey entries key) = [] →
        verify_response_contains_keys response required_keys = .ok ())
      ∧ (required_keys.filter (fun key => !hasKey entries key) ≠ [] →
        verify_response_contains_keys response required_keys =
          .error ("Missing required keys in response: "
            ++ renderStrList (required_keys.filter (fun key => !hasKey entries key))
            ++ ". Available keys: " ++ renderStrList (entries.map Prod.fst))))
  ∧ ((∀ entries, response.body ≠ .obj entries) →
      verify_response_contains_keys response required_keys =
        .error ("Response body is not a JSON object: " ++ response.body.typeName)) := by
  constructor
  · intro entries hbody
    constructor <;> intro hmiss <;>
      simp [verify_response_contains_keys, hbody, hmiss]
  · intro hnotobj
    cases hr : response.body with
    | obj entries => exact absurd hr (hnotobj entries)
    | _ => simp [verify_response_contains_keys, hr]

/-- Witness for C8: requiring data and meta of a body with keys data and
count fails listing exactly meta as missing and both present keys. -/
theorem C8_witness :
    verify_response_contains_keys keysResponse ["data", "meta"] =
      .error ("Missing required keys in response: " ++ renderStrList ["meta"]
        ++ ". Available keys: " ++ renderStrList ["data", "count"]) := by
  have h := ((C8_verify_contains_keys_spec keysResponse ["data", "meta"]).1
    [("data", .arr []), ("count", .num 2)] rfl).2 (by decide)
  exact h

/-- C4: `assert_greater_than` fails exactly when the actual value is at most
the threshold (the boundary is strictly exclusive), and on failure the
diagnostic carries the actual value, the threshold and the signed
difference; the raised message carries them too when no custom message
overrides it. -/
theorem C4_assert_greater_than_spec (actual threshold : ℚ) (message : Option String) :
    (assert_greater_than actual threshold message = .ok () ↔ threshold < actual)
  ∧ (actual ≤ threshold → ∃ f,
      assert_greater_than actual threshold message = .error f
      ∧ f.attachment = "Actual: " ++ toString actual ++ "\nThreshold: "
          ++ toString threshold ++ "\nDifference: " ++ toString (actual - threshold)
      ∧ (message = none → f.message = "Value is not greater than threshold.\nActual: "
          ++ toString actual ++ "\nThreshold: " ++ toString threshold
          ++ "\nDifference: " ++ toString (actual - threshold))) := by
  constructor
  · constructor
    · intro h
      by_contra hle
      simp [assert_greater_than, not_lt.mp hle] at h
    · intro h
      simp [assert_greater_than, not_le.mpr h]
  · intro h
    refine ⟨{ message := message.getD (gtFailMsg actual threshold),
              attachment := gtAttachment actual threshold }, ?_, rfl, ?_⟩
    · simp [assert_greater_than, h]
    · intro hm
      subst hm
      rfl

/-- Witness for C4: `assert_greater_than(5, 5)` fails and
`assert_greater_than(5.01, 5)` passes. -/
theorem C4_witness :
    assert_greater_than 5 5 none ≠ .ok ()
  ∧ assert_greater_than (501/100) 5 none = .ok () := by
  constructor
  · intro hok
    exact absurd ((C4_assert_greater_than_spec 5 5 none).1.mp hok) (by norm_num)
  · exact (C4_assert_greater_than_spec (501/100) 5 none).1.mpr (by norm_num)

/-- C5: on an entity whose attributes form a mapping, the derived accessors
read the named key with an empty-string default and never raise; the name
reads back as the empty string exactly when the name key is absent or maps
to the empty string; and the round-trip record reads back its name and iata
code exactly. -/
theorem C5_airport_accessors_spec (e : Airport) (entries : List (String × Json))
    (hattrs : e.attributes = .obj entries) :
    e.name = .ok ((lookupKey entries ("name")).getD (.str ""))
  ∧ e.city = .ok ((lookupKey entries ("city")).getD (.str ""))
  ∧ e.country = .ok ((lookupKey entries ("country")).getD (.str ""))
  ∧ e.iata_code = .ok ((lookupKey entries ("iata")).getD (.str ""))
  ∧ (e.name = .ok (.str "") ↔
      lookupKey entries ("name") = none ∨ lookupKey entries ("name") = some (.str ""))
  ∧ (∃ a, parseAirport roundTripRecord = .ok a
      ∧ a.name = .ok (.str "X") ∧ a.iata_code = .ok (.str "XXX")) := by
  refine ⟨by simp [Airport.name, Json.getD, hattrs],
          by simp [Airport.city, Json.getD, hattrs],
          by simp [Airport.country, Json.getD, hattrs],
          by simp [Airport.iata_code, Json.getD, hattrs], ?_, ⟨_, rfl, rfl, rfl⟩⟩
  cases hl : lookupKey entries ("name") with
  | none => simp [Airport.name, Json.getD, hattrs, hl]
  | some v =>
    cases v <;> simp [Airport.name, Json.getD, hattrs, hl]

/-- Witness for C5: a concrete entity with a name attribute reads it back,
and one without reads the empty string. -/
theorem C5_witness :
    kixAirport.name = .ok (.str "Osaka Intl")
  ∧ (noNameAirport.name = .ok (.str "") ↔
      lookupKey [("iata", .str "NRT")] ("name") = none ∨
      lookupKey [("iata", .str "NRT")] ("name") = some (.str "")) := by
  constructor
  · exact (C5_airport_accessors_spec kixAirport
      [("name", .str "Osaka Intl"), ("iata", .str "kix")] rfl).1
  · exact (C5_airport_accessors_spec noNameAirport [("iata", .str "NRT")] rfl).2.2.2.2.1

/-- C2: on a well-formed list response, the batch mapping returns exactly
the successfully constructed entities (N minus the M individually failing
records), records one warning per dropped record, never aborts the batch on
an individual record, and maps an empty record list to an empty entity
list. -/
theorem C2_entity_mapping_spec (response : APIResponse)
    (entries : List (String × Json)) (records : List Json)
    (hstatus : response.status_code = 200)
    (hbody : response.body = .obj entries)
    (hdata : lookupKey entries ("data") = some (.arr records)) :
    ∃ airports warnings,
      get_all_airports response = .ok (airports, warnings)
      ∧ airports = records.filterMap (fun r => (parseAirport r).toOption)
      ∧ airports.length =
          records.length - (records.filter (fun r => !(parseAirport r).isOk)).length
      ∧ warnings = records.filterMap (fun r =>
          match parseAirport r with
          | .ok _ => none
          | .error e => some (airportWarning r e))
      ∧ warnings.length = (records.filter (fun r => !(parseAirport r).isOk)).length
      ∧ (records = [] → airports = []) := by
  refine ⟨(mapAirports records).1, (mapAirports records).2, ?_, mapAirports_fst records,
          ?_, mapAirports_snd records, mapAirports_snd_length records, ?_⟩
  · rw [get_all_airports_ok response entries records hstatus hbody hdata]
  · rw [mapAirports_fst_length records, filter_isOk_length_eq records]
  · intro h
    subst h
    rfl

/-- Witness for C2: a three-record response with one malformed record maps
to exactly two entities and one warning. -/
theorem C2_witness :
    ∃ airports warnings,
      get_all_airports airportsListResponse = .ok (airports, warnings)
      ∧ airports.length = 3 - 1 ∧ warnings.length = 1 := by
  obtain ⟨airports, warnings, hok, _, hlen, _, hwlen, _⟩ :=
    C2_entity_mapping_spec airportsListResponse
      [("data", .arr
        [.obj [("id", .str "1"), ("type", .str "airport"),
               ("attributes", .obj [("name", .str "Osaka Intl"),
                                    ("iata", .str "kix")])],
         .str "malformed",
         .obj [("id", .str "2"), ("type", .str "airport"),
               ("attributes", .obj [("iata", .str "NRT")])]])]
      [.obj [("id", .str "1"), ("type", .str "airport"),
             ("attributes", .obj [("name", .str "Osaka Intl"),
                                  ("iata", .str "kix")])],
       .str "malformed",
       .obj [("id", .str "2"), ("type", .str "airport"),
             ("attributes", .obj [("iata", .str "NRT")])]]
      rfl rfl rfl
  refine ⟨airports, warnings, hok, ?_, ?_⟩
  · rw [hlen]; rfl
  · rw [hwlen]; rfl

/-- C10: `get_airport_names` projects exactly the non-empty names of the
fetched entities in their original order, omitting entities whose name key
is absent or empty, so the resulting name list never contains the empty
string and is at most as long as the entity list. -/
theorem C10_airport_names_projection (response : APIResponse)
    (airports : List Airport) (warnings : List String)
    (hfetch : get_all_airports response = .ok (airports, warnings))
    (hnames : ∀ a ∈ airports, ∃ s, nameStr a = some s) :
    get_airport_names response =
      .ok (((airports.filterMap nameStr).filter (fun s => !(s == ""))).map Json.str)
  ∧ (∀ j ∈ ((airports.filterMap nameStr).filter (fun s => !(s == ""))).map Json.str,
      j ≠ Json.str "")
  ∧ (((airports.filterMap nameStr).filter (fun s => !(s == ""))).map Json.str).length
      ≤ airports.length := by
  refine ⟨?_, ?_, ?_⟩
  · unfold get_airport_names
    rw [hfetch]
    exact projectNames_spec airports hnames
  · intro j hj
    obtain ⟨s, hs, rfl⟩ := List.mem_map.mp hj
    have := List.of_mem_filter hs
    simp at this
    simp [this]
  · calc (((airports.filterMap nameStr).filter (fun s => !(s == ""))).map Json.str).length
        = ((airports.filterMap nameStr).filter (fun s => !(s == ""))).length :=
          List.length_map _ _
      _ ≤ (airports.filterMap nameStr).length := List.length_filter_le _ _
      _ ≤ airports.length := List.length_filterMap_le _ _

/-- Witness for C10: the two entities mapped from the concrete list
response project to exactly one name (the second entity has no name). -/
theorem C10_witness :
    get_airport_names airportsListResponse = .ok [.str "Osaka Intl"] := by
  have h := (C10_airport_names_projection airportsListResponse
    [kixAirport, noNameAirport] [airportWarning (.str "malformed")
      ("AttributeError: object has no attribute get")] rfl ?_).1
  · exact h
  · intro a ha
    simp [List.mem_cons] at ha
    rcases ha with rfl | rfl
    · exact ⟨"Osaka Intl", rfl⟩
    · exact ⟨"", rfl⟩

/-- C3: `verify_airports_exist` checks every required name against the full
retrieved name list; when all are present it returns the per-name results
normally, and when at least one is absent it fails with a message listing
the complete missing set and the complete available name list. -/
theorem C3_verify_airports_exist_spec (response : APIResponse)
    (required_airports : List String) (airport_names : List Json)
    (hnames : get_airport_names response = .ok airport_names) :
    (required_airports.filter (fun r => !airport_names.any (fun n => n.eqStr r)) = [] →
      verify_airports_exist response required_airports =
        .ok (required_airports.map (fun r => (r, airport_names.any (fun n => n.eqStr r)))))
  ∧ (required_airports.filter (fun r => !airport_names.any (fun n => n.eqStr r)) ≠ [] →
      verify_airports_exist response required_airports =
        .error ("Missing required airports: "
          ++ renderStrList (required_airports.filter
              (fun r => !airport_names.any (fun n => n.eqStr r)))
          ++ ". Available airports: " ++ Json.render (.arr airport_names))) := by
  constructor <;> intro hmiss <;>
    simp [verify_airports_exist, hnames, hmiss]

/-- Witness for C3: requiring one present and one absent name fails with a
message listing exactly the absent name and the full available list. -/
theorem C3_witness :
    verify_airports_exist airportsListResponse ["Osaka Intl", "Zurich"] =
      .error ("Missing required airports: " ++ renderStrList ["Zurich"]
        ++ ". Available airports: " ++ Json.render (.arr [.str "Osaka Intl"])) := by
  have h := (C3_verify_airports_exist_spec airportsListResponse
    ["Osaka Intl", "Zurich"] [.str "Osaka Intl"] rfl).2 (by decide)
  exact h

/-- C7: the by-code lookup is total: an error anywhere in the fetch or scan
yields the absent value, a normal scan returns its result unchanged, and on
well-formed entities the result is exactly the first case-insensitive IATA
match of a linear scan (or the absent value when no entity matches). -/
theorem C7_lookup_by_iata_spec (response : APIResponse) (iata_code : String) :
    (∀ e, airportLookup response iata_code = .error e →
      get_airport_by_iata_code response iata_code = none)
  ∧ (∀ result, airportLookup response iata_code = .ok result →
      get_airport_by_iata_code response iata_code = result)
  ∧ (∀ airports warnings, get_all_airports response = .ok (airports, warnings) →
      (∀ a ∈ airports, ∃ s, iataStr a = some s) →
      get_airport_by_iata_code response iata_code =
        airports.find? (fun a => pyUpper ((iataStr a).getD "") == pyUpper iata_code)) := by
  refine ⟨?_, ?_, ?_⟩
  · intro e he
    simp [get_airport_by_iata_code, he]
  · intro result hr
    simp [get_airport_by_iata_code, hr]
  · intro airports warnings hfetch hiata
    have hscan := findByIata_spec airports iata_code hiata
    have hlookup : airportLookup response iata_code =
        .ok (airports.find? (fun a => pyUpper ((iataStr a).getD "") == pyUpper iata_code)) := by
      simp [airportLookup, hfetch, hscan]
    simp [get_airport_by_iata_code, hlookup]

/-- Witness for C7: looking up `KIX` against an entity whose stored code is
`kix` finds it case-insensitively, a missing code yields the absent value,
and a failing fetch (a 404 response) also yields the absent value. -/
theorem C7_witness :
    get_airport_by_iata_code airportsListResponse ("KIX") = some kixAirport
  ∧ get_airport_by_iata_code airportsListResponse ("LHR") = none
  ∧ get_airport_by_iata_code notFoundResponse ("KIX") = none := by
  have hiata : ∀ a ∈ [kixAirport, noNameAirport], ∃ s, iataStr a = some s := by
    intro a ha
    simp [List.mem_cons] at ha
    rcases ha with rfl | rfl
    · exact ⟨"kix", rfl⟩
    · exact ⟨"NRT", rfl⟩
  refine ⟨?_, ?_, ?_⟩
  · have h := (C7_lookup_by_iata_spec airportsListResponse ("KIX")).2.2
      [kixAirport, noNameAirport] [airportWarning (.str "malformed")
        ("AttributeError: object has no attribute get")] rfl hiata
    rw [h]
    rfl
  · have h := (C7_lookup_by_iata_spec airportsListResponse ("LHR")).2.2
      [kixAirport, noNameAirport] [airportWarning (.str "malformed")
        ("AttributeError: object has no attribute get")] rfl hiata
    rw [h]
    rfl
  · exact (C7_lookup_by_iata_spec notFoundResponse ("KIX")).1 _ rfl

/-- C6: on a well-formed distance response, when any of the three required
distance attributes is absent the mapping fails naming every missing field;
when all three are present each value is coerced to floating point into the
resulting calculation, and a value whose coercion fails propagates the
coercion error instead of being defaulted. -/
theorem C6_distance_fields_spec (response : APIResponse)
    (entries data_entries attr_entries : List (String × Json))
    (from_airport to_airport : String)
    (hstatus : response.status_code = 200)
    (hbody : response.body = .obj entries)
    (hdata : lookupKey entries ("data") = some (.obj data_entries))
    (hattr : lookupKey data_entries ("attributes") = some (.obj attr_entries)) :
    (["kilometers", "miles", "nautical_miles"].filter (fun f => !hasKey attr_entries f) ≠ [] →
      calculate_distance response from_airport to_airport =
        .error ("Missing distance fields: "
          ++ renderStrList (["kilometers", "miles", "nautical_miles"].filter
              (fun f => !hasKey attr_entries f))))
  ∧ (lookupKey data_entries ("relationships") = none →
      (∀ vk vm vn qk qm qn,
        lookupKey attr_entries ("kilometers") = some vk →
        lookupKey attr_entries ("miles") = some vm →
        lookupKey attr_entries ("nautical_miles") = some vn →
        pyFloat vk = .ok qk → pyFloat vm = .ok qm → pyFloat vn = .ok qn →
        calculate_distance response from_airport to_airport =
          .ok { from_airport := { id := .str from_airport, type := .str "airport",
                                  attributes := .obj [("iata", .str from_airport)] },
                to_airport := { id := .str to_airport, type := .str "airport",
                                attributes := .obj [("iata", .str to_airport)] },
                kilometers := qk, miles := qm, nautical_miles := qn })
      ∧ (∀ vk e,
        lookupKey attr_entries ("kilometers") = some vk →
        hasKey attr_entries ("miles") = true →
        hasKey attr_entries ("nautical_miles") = true →
        pyFloat vk = .error e →
        calculate_distance response from_airport to_airport = .error e)) := by
  constructor
  · intro hmiss
    simp [calculate_distance, verify_response_status, hstatus, hbody,
          verify_response_contains_keys, hasKey, hdata, Json.getD, hattr,
          missingFields_obj, hmiss]
    intro h1 h2 h3
    refine absurd ?_ hmiss
    have k1 : hasKey attr_entries ("kilometers") = true :=
      Option.isSome_iff_ne_none.mpr h1
    have k2 : hasKey attr_entries ("miles") = true :=
      Option.isSome_iff_ne_none.mpr h2
    have k3 : hasKey attr_entries ("nautical_miles") = true :=
      Option.isSome_iff_ne_none.mpr h3
    simp [List.filter, k1, k2, k3]
  · intro hrel
    constructor
    · intro vk vm vn qk qm qn hk hm hn hfk hfm hfn
      have hmiss : (["kilometers", "miles", "nautical_miles"].filter
          (fun f => !hasKey attr_entries f)) = [] := by
        simp [hasKey, hk, hm, hn, List.filter]
      simp [calculate_distance, verify_response_status, hstatus, hbody,
            verify_response_contains_keys, hasKey, hdata, Json.getD, hattr,
            missingFields_obj, hmiss, hrel, Json.subscript, hk, hm, hn,
            hfk, hfm, hfn, lookupKey]
    · intro vk e hk hm hn hfk
      have k1 : hasKey attr_entries ("kilometers") = true := by simp [hasKey, hk]
      have hmiss : (["kilometers", "miles", "nautical_miles"].filter
          (fun f => !hasKey attr_entries f)) = [] := by
        simp [List.filter, k1, hm, hn]
      simp [calculate_distance, verify_response_status, hstatus, hbody,
            verify_response_contains_keys, hasKey, hdata, Json.getD, hattr,
            missingFields_obj, hmiss, hrel, Json.subscript, hk, hfk, lookupKey]
      intro hcontra
      have hm2 : lookupKey attr_entries ("miles") ≠ none := by
        simp [hasKey] at hm
        exact Option.isSome_iff_ne_none.mp hm
      have hn2 : lookupKey attr_entries ("nautical_miles") ≠ none := by
        simp [hasKey] at hn
        exact Option.isSome_iff_ne_none.mp hn
      exact absurd (hcontra hm2) hn2

/-- A distance response whose attributes carry only kilometers. -/
def missingFieldsDistanceResponse : APIResponse :=
  { status_code := 200, headers := [],
    body := .obj [("data", .obj [("attributes",
      .obj [("kilometers", .num 100)])])],
    url := "/api/airports/distance", method := "POST", duration_ms := none }

/-- A distance response whose kilometers value is a JSON null. -/
def badValueDistanceResponse : APIResponse :=
  { status_code := 200, headers := [],
    body := .obj [("data", .obj [("attributes",
      .obj [("kilometers", .null), ("miles", .num 1),
            ("nautical_miles", .num 1)])])],
    url := "/api/airports/distance", method := "POST", duration_ms := none }

/-- Witness for C6: only kilometers present fails naming exactly miles and
nautical miles; all three numeric succeeds with the coerced values; a null
kilometers value fails with the coercion error. -/
theorem C6_witness :
    calculate_distance missingFieldsDistanceResponse ("KIX") ("NRT") =
      .error ("Missing distance fields: " ++ renderStrList ["miles", "nautical_miles"])
  ∧ calculate_distance consistentDistanceResponse ("KIX") ("NRT") =
      .ok consistentDistanceCalc
  ∧ calculate_distance badValueDistanceResponse ("KIX") ("NRT") =
      .error ("TypeError: float() argument must be a string or a real number, not <class NoneType>") := by
  refine ⟨?_, ?_, ?_⟩
  · exact (C6_distance_fields_spec missingFieldsDistanceResponse
      [("data", .obj [("attributes", .obj [("kilometers", .num 100)])])]
      [("attributes", .obj [("kilometers", .num 100)])]
      [("kilometers", .num 100)] ("KIX") ("NRT") rfl rfl rfl rfl).1 (by decide)
  · exact ((C6_distance_fields_spec consistentDistanceResponse
      [("data", .obj [("attributes", .obj [("kilometers", .num 1000), ("miles", .num 622), ("nautical_miles", .num 540)])])]
      [("attributes", .obj [("kilometers", .num 1000), ("miles", .num 622), ("nautical_miles", .num 540)])]
      [("kilometers", .num 1000), ("miles", .num 622), ("nautical_miles", .num 540)]
      ("KIX") ("NRT") rfl rfl rfl rfl).2 rfl).1
      (.num 1000) (.num 622) (.num 540) 1000 622 540 rfl rfl rfl rfl rfl rfl
  · exact ((C6_distance_fields_spec badValueDistanceResponse
      [("data", .obj [("attributes", .obj [("kilometers", .null), ("miles", .num 1), ("nautical_miles", .num 1)])])]
      [("attributes", .obj [("kilometers", .null), ("miles", .num 1), ("nautical_miles", .num 1)])]
      [("kilometers", .null), ("miles", .num 1), ("nautical_miles", .num 1)]
      ("KIX") ("NRT") rfl rfl rfl rfl).2 rfl).2
      (.null)
      ("TypeError: float() argument must be a string or a real number, not <class NoneType>")
      rfl rfl rfl rfl

/-- C1 counterexample: `calculate_distance` performs no ratio check, so the
claim that every calculation it returns satisfies the unit-consistency
invariant fails on a response carrying 1 km, 100 miles, 1 nautical mile:
the calculation is returned although its miles-per-kilometer ratio is far
outside the 5% tolerance around 0.621371. -/
theorem C1_counterexample_no_construction_check :
    calculate_distance inconsistentDistanceResponse ("KIX") ("NRT") =
      .ok inconsistentDistanceCalc
  ∧ 0 < inconsistentDistanceCalc.kilometers
  ∧ ¬ (|inconsistentDistanceCalc.miles / inconsistentDistanceCalc.kilometers
        - 621371 / 1000000| ≤ 5 / 100 * (621371 / 1000000)) := by
  refine ⟨rfl, by norm_num [inconsistentDistanceCalc], ?_⟩
  simp only [inconsistentDistanceCalc]
  rw [abs_of_pos (by norm_num)]
  norm_num

/-- C1 (amended): unit consistency is enforced by the test-level ratio
validation, not by construction: any calculation returned by
`calculate_distance` that passes `validate_conversion_ratios` satisfies the
invariant. -/
theorem C1_validated_unit_consistency (response : APIResponse)
    (from_airport to_airport : String) (d : DistanceCalculation)
    (hcalc : calculate_distance response from_airport to_airport = .ok d)
    (hvalid : validate_conversion_ratios d = .ok ())
    (hpos : 0 < d.kilometers) :
    |d.miles / d.kilometers - 621371 / 1000000| ≤ 5 / 100 * (621371 / 1000000)
  ∧ |d.nautical_miles / d.kilometers - 539957 / 1000000| ≤ 5 / 100 * (539957 / 1000000) := by
  unfold validate_conversion_ratios at hvalid
  dsimp only at hvalid
  split_ifs at hvalid with h1 h2
  constructor
  · rw [mul_comm]
    exact not_lt.mp h1
  · rw [mul_comm]
    exact not_lt.mp h2

/-- Witness for C1: a 1000 km / 622 miles / 540 nautical miles calculation
passes the ratio validation and satisfies the invariant. -/
theorem C1_witness :
    |consistentDistanceCalc.miles / consistentDistanceCalc.kilometers
      - 621371 / 1000000| ≤ 5 / 100 * (621371 / 1000000)
  ∧ |consistentDistanceCalc.nautical_miles / consistentDistanceCalc.kilometers
      - 539957 / 1000000| ≤ 5 / 100 * (539957 / 1000000) := by
  refine C1_validated_unit_consistency consistentDistanceResponse ("KIX") ("NRT")
    consistentDistanceCalc rfl ?_ (by norm_num [consistentDistanceCalc])
  unfold validate_conversion_ratios
  dsimp only
  rw [if_neg, if_neg]
  · simp only [consistentDistanceCalc]
    rw [not_lt, abs_of_pos (by norm_num)]
    norm_num
  · simp only [consistentDistanceCalc]
    rw [not_lt, abs_of_pos (by norm_num)]
    norm_num
